import Mathlib

/-!
Shallow embedding of the repository validation-and-persistence layer of the
task-cli program (src/app/repo.py, src/app/schemas.py, src/app/enums.py,
src/app/cli.py), together with theorems settling the specification claims.

Python values decoded from JSON are modelled by the inductive PyValue; the
file system is modelled as a map from path strings to file contents, where a
file content is either absent, present-but-not-decodable-as-JSON, or a
decoded JSON value.  Serialization is modelled at the decoded-value level:
json.dump followed by json.load is the identity on the integer/string/list/
object values this program stores.
-/

namespace TaskCli

/-- A Python value as produced by json.load: None, bool, int, str, list, dict.
Floats never occur in the values this program writes and are not needed by any
claim, so they are omitted from the model. -/
inductive PyValue where
  | pyNone
  | pyBool (b : Bool)
  | pyInt (n : Int)
  | pyStr (s : String)
  | pyList (items : List PyValue)
  | pyDict (fields : List (String × PyValue))

/-- Python type name, as type(obj).__name__ renders it. -/
def pyTypeName : PyValue → String
  | .pyNone => "NoneType"
  | .pyBool _ => "bool"
  | .pyInt _ => "int"
  | .pyStr _ => "str"
  | .pyList _ => "list"
  | .pyDict _ => "dict"

/-- Lookup of a key in a Python dict (modelled as an association list; JSON
objects decoded by json.load have unique keys). -/
def dictLookup : List (String × PyValue) → String → Option PyValue
  | [], _ => none
  | (k, v) :: rest, key => if k = key then some v else dictLookup rest key

/-- An expected field annotation object as the validator receives it at
runtime: the classes int and str, a Literal of string constants, or an
opaque PEP 695 TypeAliasType carrying only its name.  The status annotation
of Task is the alias statement binding TaskStatus to a Literal in
src/app/schemas.py line 16, so the Task annotations hold the TypeAliasType
object named TaskStatus, not the underlying Literal: get_origin on it
returns None and it is not a class. -/
inductive FieldType where
  | tInt
  | tStr
  | tLit (allowed : List String)
  | tAlias (name : String)

/-- The three status strings, the arguments of the Literal underlying the
TaskStatus alias (also the TASK_STATUS tuple) in src/app/schemas.py. -/
def statusStrings : List String := ["todo", "in_progress", "done"]

/-- The Task schema annotations, in declaration order, from the class Task in
src/app/schemas.py.  All five keys are required (Task is a total TypedDict),
so schema required keys coincide with the annotation keys.  The status entry
is the opaque TypeAliasType named TaskStatus, because the source declares it
with a PEP 695 alias statement; the runtime validator never sees the
underlying Literal. -/
def taskAnn : List (String × FieldType) :=
  [("id", .tInt), ("description", .tStr), ("status", .tAlias "TaskStatus"),
   ("created_at", .tStr), ("updated_at", .tStr)]

/-- The annotation key list of the Task schema. -/
def taskKeys : List String :=
  ["id", "description", "status", "created_at", "updated_at"]

/-- Embedding of check_value_type (src/app/repo.py, lines 36 to 56).
When get_origin of the expected type is Literal, Python membership uses
equality against the string arguments, which no non-string value satisfies;
when the expected type is a class, isinstance is used (int accepts bool as
well since bool is a subclass of int); any other annotation object, in
particular a TypeAliasType such as TaskStatus (get_origin None, not a
class), reaches the final fall-through and yields False for every value. -/
def check_value_type (value : PyValue) (expected : FieldType) : Bool :=
  match expected with
  | .tLit allowed =>
    match value with
    | .pyStr s => allowed.contains s
    | _ => false
  | .tInt =>
    match value with
    | .pyInt _ => true
    | .pyBool _ => true
    | _ => false
  | .tStr =>
    match value with
    | .pyStr _ => true
    | _ => false
  | .tAlias _ => false

/-- The single-quote character, written by code point to stand for the Python
repr quoting of simple strings. -/
def squote : String := String.singleton (Char.ofNat 39)

/-- Python repr of a plain string constant (the status literals contain no
characters needing escapes). -/
def pyStrRepr (s : String) : String := squote ++ s ++ squote

/-- Embedding of type_repr (src/app/repo.py, lines 59 to 76): a Literal
renders as its arguments, each via repr, joined with the word or; a plain
class renders as its name; any other annotation object falls through to
str of the object, which for the TaskStatus TypeAliasType is its name. -/
def type_repr (expected : FieldType) : String :=
  match expected with
  | .tLit allowed => String.intercalate " or " (allowed.map pyStrRepr)
  | .tInt => "int"
  | .tStr => "str"
  | .tAlias name => name

/-- A structured validation failure, one constructor per distinct ValueError
message template raised by assert_typed_dict in src/app/repo.py. -/
inductive ValidationError where
  | expectedDict (got : String)
  | missingKeys (keys : List String)
  | unexpectedKeys (keys : List String)
  | invalidType (key : String) (expected : String) (got : PyValue)

/-- Embedding of the per-field loop at the end of assert_typed_dict
(src/app/repo.py, lines 106 to 118): iterate the annotations in order, skip
absent keys, and fail on the first value whose type does not match. -/
def check_field_types (fields : List (String × PyValue)) :
    List (String × FieldType) → Except ValidationError Unit
  | [] => .ok ()
  | (key, ty) :: rest =>
    match dictLookup fields key with
    | none => check_field_types fields rest
    | some v =>
      if check_value_type v ty then check_field_types fields rest
      else .error (.invalidType key (type_repr ty) v)

/-- Embedding of assert_typed_dict (src/app/repo.py, lines 79 to 118) at the
Task schema shape: reject non-dicts; then the missing-keys check (for Task
every annotation key is required); then the extra-keys check over the object
keys; then the per-field type check. -/
def assert_typed_dict (obj : PyValue) (ann : List (String × FieldType)) :
    Except ValidationError Unit :=
  match obj with
  | .pyDict fields =>
    match (ann.map Prod.fst).filter (fun k => !((fields.map Prod.fst).contains k)) with
    | k :: ks => .error (.missingKeys (k :: ks))
    | [] =>
      match (fields.map Prod.fst).filter (fun k => !((ann.map Prod.fst).contains k)) with
      | k :: ks => .error (.unexpectedKeys (k :: ks))
      | [] => check_field_types fields ann
  | v => .error (.expectedDict (pyTypeName v))

/-- A repository-level failure, one constructor per distinct ValueError
message template raised in src/app/repo.py, plus the bare validation error
raised by save on an invalid item. -/
inductive RepoError where
  | corrupted (path : String)
  | formatInvalid
  | invalidItem (index : Nat) (detail : ValidationError) (path : String)
  | notFound (taskId : Int)
  | validation (detail : ValidationError)

/-- The element loop of assert_list_valid (src/app/repo.py, lines 144 to
154), carrying the current index: each element is validated in order and the
first failure is wrapped with its index and the repository path. -/
def assert_items_from (ann : List (String × FieldType)) (repoPath : String) :
    List PyValue → Nat → Except RepoError Unit
  | [], _ => .ok ()
  | item :: rest, i =>
    match assert_typed_dict item ann with
    | .error e => .error (.invalidItem i e repoPath)
    | .ok _ => assert_items_from ann repoPath rest (i + 1)

/-- Embedding of assert_list_valid (src/app/repo.py, lines 121 to 154):
a non-list payload fails with the invalid-format error, otherwise every
element is validated in index order. -/
def assert_list_valid (data : PyValue) (ann : List (String × FieldType))
    (repoPath : String) : Except RepoError Unit :=
  match data with
  | .pyList items => assert_items_from ann repoPath items 0
  | _ => .error .formatInvalid

/-- The items of a Python list value; other values give the empty list (only
applied after assert_list_valid has established the value is a list). -/
def pyListItems : PyValue → List PyValue
  | .pyList items => items
  | _ => []

/-- Embedding of as_list (src/app/repo.py, lines 157 to 177): validate, then
return the same list, now typed. -/
def as_list (data : PyValue) (ann : List (String × FieldType))
    (repoPath : String) : Except RepoError (List PyValue) :=
  match assert_list_valid data ann repoPath with
  | .error e => .error e
  | .ok _ => .ok (pyListItems data)

/-- The state of one file: absent, present but not decodable as JSON, or
present and decoding to the given value. -/
inductive FileContent where
  | absent
  | invalidJson
  | json (v : PyValue)

/-- The file system, as a map from path strings to file contents. -/
abbrev Store := String → FileContent

/-- Embedding of the load function (src/app/repo.py, lines 180 to 211):
a missing file is treated as the empty list, undecodable bytes raise the
corrupted-store error naming the path, and the decoded value goes through
as_list. -/
def load_file (ann : List (String × FieldType)) (fs : Store)
    (repoPath : String) : Except RepoError (List PyValue) :=
  match fs repoPath with
  | .absent => as_list (.pyList []) ann repoPath
  | .invalidJson => .error (.corrupted repoPath)
  | .json v => as_list v ann repoPath

/-- Embedding of write_all (src/app/repo.py, lines 214 to 234): the file at
the path is overwritten with the serialization of the items; parent directory
creation and the indent argument have no observable effect at this level of
abstraction. -/
def write_all (fs : Store) (items : List PyValue) (repoPath : String) : Store :=
  fun q => if q = repoPath then .json (.pyList items) else fs q

/-- Embedding of the save function (src/app/repo.py, lines 237 to 262):
validate the item, load and validate the existing contents, append, write. -/
def save_item (fs : Store) (item : PyValue) (ann : List (String × FieldType))
    (repoPath : String) : Except RepoError Store :=
  match assert_typed_dict item ann with
  | .error e => .error (.validation e)
  | .ok _ =>
    match load_file ann fs repoPath with
    | .error e => .error e
    | .ok data => .ok (write_all fs (data ++ [item]) repoPath)

/-- The default repository path (src/app/repo.py, lines 9 to 13), rendered
relative to the project root. -/
def REPO_FILE_PATH : String := "data/tasks.json"

/-- Embedding of load_tasks (src/app/repo.py, lines 265 to 287). -/
def load_tasks (fs : Store) (repoPath : String) : Except RepoError (List PyValue) :=
  load_file taskAnn fs repoPath

/-- Embedding of save_task (src/app/repo.py, lines 290 to 309). -/
def save_task (fs : Store) (task : PyValue) (repoPath : String) :
    Except RepoError Store :=
  save_item fs task taskAnn repoPath

/-- Embedding of TaskStatusEnum (src/app/enums.py). -/
inductive TaskStatusEnum where
  | TODO
  | IN_PROGRESS
  | DONE

/-- The value attribute of TaskStatusEnum members. -/
def TaskStatusEnum.value : TaskStatusEnum → String
  | .TODO => "todo"
  | .IN_PROGRESS => "in_progress"
  | .DONE => "done"

/-- Python max over the ids of the loaded data, with default 0 when the data
is empty, as in max over a generator with default=0. -/
def maxIdsDefault : List Int → Int
  | [] => 0
  | x :: xs => xs.foldl max x

/-- The id field of a task dict as an integer.  For data that passed
validation it is always an int (or a bool, which Python treats as the
integers 0 and 1); the remaining branches are unreachable on validated
data. -/
def taskIdOf (t : PyValue) : Int :=
  match t with
  | .pyDict fields =>
    match dictLookup fields "id" with
    | some (.pyInt n) => n
    | some (.pyBool b) => if b then 1 else 0
    | _ => 0
  | _ => 0

/-- The next id computed by create_task (src/app/repo.py, line 346). -/
def next_task_id (data : List PyValue) : Int :=
  maxIdsDefault (data.map taskIdOf) + 1

/-- A task dict literal with the five schema fields in declaration order. -/
def mkTaskDict (i : Int) (description status created_at updated_at : String) :
    PyValue :=
  .pyDict [("id", .pyInt i), ("description", .pyStr description),
           ("status", .pyStr status), ("created_at", .pyStr created_at),
           ("updated_at", .pyStr updated_at)]

/-- The task dict built by create_task (src/app/repo.py, lines 349 to 355):
both timestamps are the same current instant, passed here as a parameter, and
the status is stored as the string value of the enum member. -/
def mkCreatedTask (data : List PyValue) (description : String)
    (status : TaskStatusEnum) (now : String) : PyValue :=
  mkTaskDict (next_task_id data) description status.value now now

/-- Embedding of create_task (src/app/repo.py, lines 312 to 357).  The
function loads from the supplied path, builds the new task, and then calls
save_task WITHOUT forwarding the supplied path, so the save step runs against
the default REPO_FILE_PATH exactly as the source does.  The Python function
is annotated to return None and has no return statement, so the returned
value is modelled as pyNone. -/
def create_task (fs : Store) (description : String) (status : TaskStatusEnum)
    (now : String) (repoPath : String) : Except RepoError (Store × PyValue) :=
  match load_tasks fs repoPath with
  | .error e => .error e
  | .ok data =>
    match save_task fs (mkCreatedTask data description status now) REPO_FILE_PATH with
    | .error e => .error e
    | .ok fs2 => .ok (fs2, .pyNone)

/-- Python equality test of a task dict id field against an integer, as in
the comparison of t at key id with task_id: ints compare by value, bools
compare as the integers 0 and 1, and every other value compares unequal. -/
def idEq (t : PyValue) (task_id : Int) : Bool :=
  match t with
  | .pyDict fields =>
    match dictLookup fields "id" with
    | some (.pyInt n) => n == task_id
    | some (.pyBool b) => (if b then (1 : Int) else 0) == task_id
    | _ => false
  | _ => false

/-- First index at which the test holds, carrying the running index, as in
the Python next over an enumerate generator with None default. -/
def firstIndexWhere (p : PyValue → Bool) : List PyValue → Nat → Option Nat
  | [], _ => none
  | t :: rest, i => if p t then some i else firstIndexWhere p rest (i + 1)

/-- Embedding of delete_task (src/app/repo.py, lines 360 to 382): load from
the supplied path, find the first index whose id matches, fail with the
not-found error when none does (before any write), otherwise remove that
element and write the remainder back to the supplied path. -/
def delete_task (fs : Store) (task_id : Int) (repoPath : String) :
    Except RepoError Store :=
  match load_tasks fs repoPath with
  | .error e => .error e
  | .ok data =>
    match firstIndexWhere (fun t => idEq t task_id) data 0 with
    | none => .error (.notFound task_id)
    | some i => .ok (write_all fs (data.eraseIdx i) repoPath)

/-- Replacement of one field of a task dict, preserving key order, as Python
dict assignment on an existing key does. -/
def setField (v : PyValue) (key : String) (newVal : PyValue) : PyValue :=
  match v with
  | .pyDict fields =>
    .pyDict (fields.map (fun kv => if kv.1 = key then (kv.1, newVal) else kv))
  | other => other

/-- Modelled from the spec: update_task is imported by src/app/cli.py from
app.repo but is absent from the provided src/app/repo.py.  Spec section 4.5:
loads the collection, locates the task by id, fails with NotFound(id) if
absent, replaces description, refreshes updated_at to the current instant,
writes the full collection, and returns the updated task. -/
def update_task (fs : Store) (task_id : Int) (description : String)
    (now : String) (repoPath : String) : Except RepoError (Store × PyValue) :=
  match load_tasks fs repoPath with
  | .error e => .error e
  | .ok data =>
    match firstIndexWhere (fun t => idEq t task_id) data 0 with
    | none => .error (.notFound task_id)
    | some i =>
      let updated := setField (setField (data.getD i .pyNone) "description"
        (.pyStr description)) "updated_at" (.pyStr now)
      .ok (write_all fs (data.set i updated) repoPath, updated)

/-- Modelled from the spec: the shared body of mark_task_in_progress and
mark_task_done, both imported by src/app/cli.py from app.repo but absent from
the provided src/app/repo.py.  Spec section 4.5: loads, locates by id, fails
with NotFound(id) if absent, sets status to the target enumerated value,
refreshes updated_at, writes, and returns the updated task. -/
def mark_task_status (fs : Store) (task_id : Int) (status : TaskStatusEnum)
    (now : String) (repoPath : String) : Except RepoError (Store × PyValue) :=
  match load_tasks fs repoPath with
  | .error e => .error e
  | .ok data =>
    match firstIndexWhere (fun t => idEq t task_id) data 0 with
    | none => .error (.notFound task_id)
    | some i =>
      let updated := setField (setField (data.getD i .pyNone) "status"
        (.pyStr status.value)) "updated_at" (.pyStr now)
      .ok (write_all fs (data.set i updated) repoPath, updated)

/-- Modelled from the spec: mark_task_in_progress, see mark_task_status. -/
def mark_task_in_progress (fs : Store) (task_id : Int) (now : String)
    (repoPath : String) : Except RepoError (Store × PyValue) :=
  mark_task_status fs task_id .IN_PROGRESS now repoPath

/-- Modelled from the spec: mark_task_done, see mark_task_status. -/
def mark_task_done (fs : Store) (task_id : Int) (now : String)
    (repoPath : String) : Except RepoError (Store × PyValue) :=
  mark_task_status fs task_id .DONE now repoPath

/-- Python str rendering of a value interpolated into an f-string.  Only the
scalar cases are exercised by the CLI messages modelled here; container
rendering is not needed by any message and is elided to a fixed tag. -/
def pyFormatValue : PyValue → String
  | .pyNone => "None"
  | .pyBool b => if b then "True" else "False"
  | .pyInt n => toString n
  | .pyStr s => s
  | .pyList _ => "<list>"
  | .pyDict _ => "<dict>"

/-- Embedding of add_task_cmd (src/app/cli.py, lines 162 to 165): call
create_task forwarding the supplied path, bind its return value, and format
the success message interpolating that value. -/
def add_task_cmd (fs : Store) (description : String) (now : String)
    (repoPath : String) : Except RepoError (Store × String) :=
  match create_task fs description .TODO now repoPath with
  | .error e => .error e
  | .ok (fs2, ret) =>
    .ok (fs2, "Task added successfully (ID: " ++ pyFormatValue ret ++ ")")

/-- Store after a create-like operation: the new store on success, the
original store on failure (an exception leaves the file untouched). -/
def storeAfterCreate (r : Except RepoError (Store × PyValue)) (orig : Store) : Store :=
  match r with
  | .ok (fs2, _) => fs2
  | .error _ => orig

/-- Value returned by a create-like operation, when it succeeded. -/
def valueAfterCreate (r : Except RepoError (Store × PyValue)) : Option PyValue :=
  match r with
  | .ok (_, v) => some v
  | .error _ => none

/-- Message printed by a command, when it succeeded. -/
def msgAfterAdd (r : Except RepoError (Store × String)) : Option String :=
  match r with
  | .ok (_, msg) => some msg
  | .error _ => none

/-- Store after a delete operation: the new store on success, the original
store on failure (an exception leaves the file untouched). -/
def storeAfterDelete (r : Except RepoError Store) (orig : Store) : Store :=
  match r with
  | .ok fs2 => fs2
  | .error _ => orig

/-- Whether a Python value is a list. -/
def isPyList : PyValue → Bool
  | .pyList _ => true
  | _ => false

/-!  Concrete example inputs, used by the evaluating claim theorems and the
witness theorems. -/

/-- A well-formed task with id 1. -/
def exTask1 : PyValue := mkTaskDict 1 "A" "todo" "T1" "T1"

/-- A well-formed task with id 3: together with exTask1 the stored id set is
non-contiguous. -/
def exTask3 : PyValue := mkTaskDict 3 "B" "done" "T2" "T2"

/-- A file system with no files at all. -/
def exFS0 : Store := fun _ => .absent

/-- A file system whose default repository file holds tasks with ids 1 and 3. -/
def exFS5 : Store := fun q =>
  if q = REPO_FILE_PATH then .json (.pyList [exTask1, exTask3]) else .absent

/-- A file system with one task stored at the path store.json. -/
def exFS6 : Store := fun q =>
  if q = "store.json" then .json (.pyList [exTask1]) else .absent

/-- A file system whose every file holds bytes that are not decodable JSON. -/
def exFSbadJson : Store := fun _ => .invalidJson

/-- A file system whose every file decodes to a single JSON object rather
than an array. -/
def exFSobj : Store := fun _ => .json (.pyDict [])

/-- A file system storing one task whose timestamp fields hold arbitrary
non-timestamp text, with updated_at sorting before created_at. -/
def exFS10 : Store := fun _ =>
  .json (.pyList [mkTaskDict 1 "x" "todo" "zzz not a timestamp" "aaa"])

/-- The spec example object: all five Task fields correct plus an extra
field. -/
def exObjExtra : PyValue :=
  .pyDict [("id", .pyInt 1), ("description", .pyStr "x"), ("status", .pyStr "todo"),
           ("created_at", .pyStr "c"), ("updated_at", .pyStr "u"),
           ("extra", .pyBool true)]

/-- The spec example object with the status field removed. -/
def exObjNoStatus : PyValue :=
  .pyDict [("id", .pyInt 1), ("description", .pyStr "x"),
           ("created_at", .pyStr "c"), ("updated_at", .pyStr "u"),
           ("extra", .pyBool true)]

/-- The five-field object with status set to the string bogus. -/
def exObjBogus : PyValue :=
  .pyDict [("id", .pyInt 1), ("description", .pyStr "x"), ("status", .pyStr "bogus"),
           ("created_at", .pyStr "c"), ("updated_at", .pyStr "u")]

/-!  Claim theorems.  The next six theorems document the central runtime
defect of the source: the Task status annotation is the opaque PEP 695
TaskStatus alias, which check_value_type cannot dispatch on, so structural
validation rejects the status field of every record. -/

/-- C1 (refuting evaluation): writing any sequence that begins with a task
carrying the five schema fields and loading the same path back fails with
the invalid-element error at index 0 on the status field, whose expected
side renders as the alias name TaskStatus; the round trip holds only for
the empty sequence. -/
theorem roundtrip_write_load_fails (fs : Store) (p : String) (i : Int)
    (d s c u : String) (rest : List PyValue) :
    load_file taskAnn (write_all fs (mkTaskDict i d s c u :: rest) p) p =
      .error (.invalidItem 0 (.invalidType "status" "TaskStatus" (.pyStr s)) p) ∧
    load_file taskAnn (write_all fs [] p) p = .ok [] := by
  constructor
  · have hw : write_all fs (mkTaskDict i d s c u :: rest) p p =
        .json (.pyList (mkTaskDict i d s c u :: rest)) := by simp [write_all]
    simp only [load_file, hw]
    rfl
  · have hw : write_all fs [] p p = .json (.pyList []) := by simp [write_all]
    simp only [load_file, hw]
    rfl

/-- C2 (refuting evaluation): the structural validator rejects every mapping
whose keys are exactly the five Task fields with an integer id, string
description and timestamps, and any status string whatsoever: the id and
description checks pass, then the status check reaches the unsupported
TaskStatus alias annotation, check_value_type falls through to False, and
the invalid-field-type error is raised with the expected side rendered as
str of the alias, the text TaskStatus. -/
theorem validator_rejects_wellformed (i : Int) (d s c u : String) :
    assert_typed_dict (mkTaskDict i d s c u) taskAnn =
      .error (.invalidType "status" "TaskStatus" (.pyStr s)) := rfl

/-- C3 (refuting evaluation): create_task invoked with the path other.json
on a file system with no files raises the validation error on the status
field inside the save step, before any write, so no file at all changes:
other.json never receives the new task, and neither does the default path.
The unforwarded repo_path argument of the save_task call (repo.py line 357)
is a second latent slip, observationally masked by the validation failure. -/
theorem create_task_never_persists :
    create_task exFS0 "x" .TODO "T" "other.json" =
      .error (.validation (.invalidType "status" "TaskStatus" (.pyStr "todo"))) ∧
    storeAfterCreate (create_task exFS0 "x" .TODO "T" "other.json") exFS0 = exFS0 :=
  ⟨rfl, rfl⟩

/-- C4 (refuting evaluation): create_task never returns an id.  On an empty
default store it raises the validation error on the status field, so there
is no successful create at all: the returned value is absent and the CLI
add command never produces its success message.  Even on the unreachable
success path the source is annotated to return None and has no return
statement. -/
theorem create_task_never_returns_id :
    create_task exFS0 "x" .TODO "T" REPO_FILE_PATH =
      .error (.validation (.invalidType "status" "TaskStatus" (.pyStr "todo"))) ∧
    valueAfterCreate (create_task exFS0 "x" .TODO "T" REPO_FILE_PATH) = none ∧
    msgAfterAdd (add_task_cmd exFS0 "x" "T" REPO_FILE_PATH) = none :=
  ⟨rfl, rfl, rfl⟩

/-- C5 (refuting evaluation): the id computation itself follows the claimed
formula (for stored ids 1 and 3 the next id is 4, not 2), but no create ever
succeeds: on the empty default store create raises the status validation
error in the save step, and on the non-empty default store holding ids 1 and
3 the initial load already fails with the invalid-element error, so the
assigned id is never observable. -/
theorem create_assigns_but_never_succeeds :
    next_task_id [exTask1, exTask3] = 4 ∧
    create_task exFS0 "x" .TODO "T" REPO_FILE_PATH =
      .error (.validation (.invalidType "status" "TaskStatus" (.pyStr "todo"))) ∧
    create_task exFS5 "x" .TODO "T" REPO_FILE_PATH =
      .error (.invalidItem 0 (.invalidType "status" "TaskStatus" (.pyStr "todo"))
        REPO_FILE_PATH) :=
  ⟨rfl, rfl, rfl⟩

/-- C6 (refuting evaluation): on a non-empty well-formed store, delete of an
absent id fails with the invalid-element error raised by the load step, not
with the not-found error the claim names; the store is still left unchanged,
because the failure precedes any write.  Only on an empty collection does
the not-found error appear.  The spec-modelled update and mark operations
run through the same load and fail identically. -/
theorem delete_not_found_unreachable_on_nonempty :
    delete_task exFS6 2 "store.json" =
      .error (.invalidItem 0 (.invalidType "status" "TaskStatus" (.pyStr "todo"))
        "store.json") ∧
    RepoError.invalidItem 0 (.invalidType "status" "TaskStatus" (.pyStr "todo"))
        "store.json" ≠ .notFound 2 ∧
    storeAfterDelete (delete_task exFS6 2 "store.json") exFS6 = exFS6 ∧
    delete_task exFS0 2 "store.json" = .error (.notFound 2) ∧
    update_task exFS6 2 "new" "T9" "store.json" =
      .error (.invalidItem 0 (.invalidType "status" "TaskStatus" (.pyStr "todo"))
        "store.json") ∧
    mark_task_in_progress exFS6 2 "T9" "store.json" =
      .error (.invalidItem 0 (.invalidType "status" "TaskStatus" (.pyStr "todo"))
        "store.json") ∧
    mark_task_done exFS6 2 "T9" "store.json" =
      .error (.invalidItem 0 (.invalidType "status" "TaskStatus" (.pyStr "todo"))
        "store.json") :=
  ⟨rfl, (by intro h; cases h), rfl, rfl, rfl, rfl, rfl⟩

/-- C7 (refuting evaluation): the extra-field and missing-status cases fail
exactly as claimed, but the bogus-status case, while raising the
invalid-field-type error for status, renders its expected side as the alias
name TaskStatus rather than the three allowed literals joined with the word
or: the Literal branch of type_repr, which would produce that join, is
unreachable for the status annotation. -/
theorem strict_schema_failures_eval :
    assert_typed_dict exObjExtra taskAnn = .error (.unexpectedKeys ["extra"]) ∧
    assert_typed_dict exObjNoStatus taskAnn = .error (.missingKeys ["status"]) ∧
    assert_typed_dict exObjBogus taskAnn =
      .error (.invalidType "status" "TaskStatus" (.pyStr "bogus")) ∧
    type_repr (.tAlias "TaskStatus") = "TaskStatus" ∧
    type_repr (.tLit statusStrings) =
      pyStrRepr "todo" ++ " or " ++ pyStrRepr "in_progress" ++ " or "
        ++ pyStrRepr "done" ∧
    type_repr (.tAlias "TaskStatus") ≠ type_repr (.tLit statusStrings) :=
  ⟨rfl, rfl, rfl, rfl, rfl, by decide⟩

/-- C8: loading a path whose file exists but does not decode as JSON fails
with the corrupted-store error naming the path; loading a path whose file
decodes to a non-array top-level value fails with the invalid-format error;
and the two failure kinds are distinct. -/
theorem load_corruption_discrimination :
    (∀ (fs : Store) (p : String), fs p = .invalidJson →
      load_tasks fs p = .error (.corrupted p)) ∧
    (∀ (fs : Store) (p : String) (v : PyValue), fs p = .json v →
      isPyList v = false → load_tasks fs p = .error .formatInvalid) ∧
    (∀ p : String, RepoError.corrupted p ≠ RepoError.formatInvalid) := by
  refine ⟨?_, ?_, ?_⟩
  · intro fs p h
    simp only [load_tasks, load_file, h]
  · intro fs p v h hv
    simp only [load_tasks, load_file, h]
    cases v <;> first
      | rfl
      | simp [isPyList] at hv
  · intro p h
    cases h

theorem load_corruption_discrimination_witness :
    load_tasks exFSbadJson "p" = .error (.corrupted "p") ∧
    load_tasks exFSobj "p" = .error .formatInvalid ∧
    RepoError.corrupted "p" ≠ RepoError.formatInvalid :=
  ⟨load_corruption_discrimination.1 exFSbadJson "p" rfl,
   load_corruption_discrimination.2.1 exFSobj "p" (.pyDict []) rfl rfl,
   load_corruption_discrimination.2.2 "p"⟩

/-- C9: loading a path at which no file exists succeeds and returns the
empty sequence. -/
theorem load_absent_returns_empty (fs : Store) (p : String)
    (h : fs p = .absent) : load_tasks fs p = .ok [] := by
  simp only [load_tasks, load_file, h, as_list, assert_list_valid,
    assert_items_from, pyListItems]

theorem load_absent_returns_empty_witness :
    load_tasks exFS0 "anywhere.json" = .ok [] :=
  load_absent_returns_empty exFS0 "anywhere.json" rfl

/-- C10 (refuting evaluation): the per-field check applied to the two
timestamp annotations accepts any string whatsoever (they are the class str,
so only isinstance is checked, never a date format and never an ordering),
but the validator as a whole rejects every task mapping earlier, at the
status field, so loading a store whose timestamps hold arbitrary text fails
with the invalid-element error rather than succeeding. -/
theorem timestamps_lax_but_load_rejects :
    (∀ c : String, check_value_type (.pyStr c) .tStr = true) ∧
    load_tasks exFS10 "p" =
      .error (.invalidItem 0 (.invalidType "status" "TaskStatus" (.pyStr "todo")) "p") :=
  ⟨fun _ => rfl, rfl⟩

end TaskCli
